import Mathlib

/-!
Verification of the cfgrib binding-surface headers (`src/cfgrib/eccodes.h`,
`src/cfgrib/grib_api.h`, `src/eccodes_grib/eccodes.h`).

The three source files are C declaration surfaces: type tags, error-code
tables, a product-kind enumeration, and function prototypes.  The constants
and prototypes below are transcribed from the headers; the behavioural
models of the wrapped library (handles, indexes, streams, keys iterators)
are modelled from the specification, since no implementation body is part
of this repository.
-/

set_option autoImplicit false

/-! ## Key type tags, transcribed from `src/cfgrib/grib_api.h` lines 18-34
(identically present in `src/cfgrib/eccodes.h` and `src/eccodes_grib/eccodes.h`). -/

def GRIB_TYPE_UNDEFINED : Int := 0
def GRIB_TYPE_LONG : Int := 1
def GRIB_TYPE_DOUBLE : Int := 2
def GRIB_TYPE_STRING : Int := 3
def GRIB_TYPE_BYTES : Int := 4
def GRIB_TYPE_SECTION : Int := 5
def GRIB_TYPE_LABEL : Int := 6
def GRIB_TYPE_MISSING : Int := 7

/-- The key type-tag table as the headers declare it, name paired with value,
in declaration order. -/
def gribTypeTags : List (String × Int) :=
  [("GRIB_TYPE_UNDEFINED", GRIB_TYPE_UNDEFINED),
   ("GRIB_TYPE_LONG", GRIB_TYPE_LONG),
   ("GRIB_TYPE_DOUBLE", GRIB_TYPE_DOUBLE),
   ("GRIB_TYPE_STRING", GRIB_TYPE_STRING),
   ("GRIB_TYPE_BYTES", GRIB_TYPE_BYTES),
   ("GRIB_TYPE_SECTION", GRIB_TYPE_SECTION),
   ("GRIB_TYPE_LABEL", GRIB_TYPE_LABEL),
   ("GRIB_TYPE_MISSING", GRIB_TYPE_MISSING)]

/-! ## Product-kind enumeration, transcribed from `src/cfgrib/grib_api.h` line 16:
`typedef enum ProductKind {PRODUCT_ANY, PRODUCT_GRIB, PRODUCT_BUFR, PRODUCT_METAR,
PRODUCT_GTS, PRODUCT_TAF} ProductKind;`. -/

inductive ProductKind where
  | PRODUCT_ANY
  | PRODUCT_GRIB
  | PRODUCT_BUFR
  | PRODUCT_METAR
  | PRODUCT_GTS
  | PRODUCT_TAF
deriving DecidableEq, Repr

/-- The enumerator names of `ProductKind` in declaration order.  A C enum
without explicit values numbers its members consecutively from 0, so the
value of each member is its position in this list. -/
def productKindMembers : List String :=
  ["PRODUCT_ANY", "PRODUCT_GRIB", "PRODUCT_BUFR", "PRODUCT_METAR",
   "PRODUCT_GTS", "PRODUCT_TAF"]

/-- C value of a `ProductKind` enumerator: its index in the declaration. -/
def productKindValue (n : String) : Option Nat :=
  productKindMembers.indexOf? n

/-! ## Error codes, transcribed from `src/cfgrib/eccodes.h` lines 452-584
(identically in `src/cfgrib/grib_api.h`; `src/eccodes_grib/eccodes.h` repeats
`GRIB_SUCCESS`, `GRIB_END_OF_FILE` and `GRIB_END_OF_INDEX`). -/

def GRIB_SUCCESS : Int := 0
def GRIB_END_OF_FILE : Int := -1
def GRIB_INTERNAL_ERROR : Int := -2
def GRIB_BUFFER_TOO_SMALL : Int := -3
def GRIB_NOT_IMPLEMENTED : Int := -4
def GRIB_7777_NOT_FOUND : Int := -5
def GRIB_ARRAY_TOO_SMALL : Int := -6
def GRIB_FILE_NOT_FOUND : Int := -7
def GRIB_CODE_NOT_FOUND_IN_TABLE : Int := -8
def GRIB_WRONG_ARRAY_SIZE : Int := -9
def GRIB_NOT_FOUND : Int := -10
def GRIB_IO_PROBLEM : Int := -11
def GRIB_INVALID_MESSAGE : Int := -12
def GRIB_DECODING_ERROR : Int := -13
def GRIB_ENCODING_ERROR : Int := -14
def GRIB_NO_MORE_IN_SET : Int := -15
def GRIB_GEOCALCULUS_PROBLEM : Int := -16
def GRIB_OUT_OF_MEMORY : Int := -17
def GRIB_READ_ONLY : Int := -18
def GRIB_INVALID_ARGUMENT : Int := -19
def GRIB_NULL_HANDLE : Int := -20
def GRIB_INVALID_SECTION_NUMBER : Int := -21
def GRIB_VALUE_CANNOT_BE_MISSING : Int := -22
def GRIB_WRONG_LENGTH : Int := -23
def GRIB_INVALID_TYPE : Int := -24
def GRIB_WRONG_STEP : Int := -25
def GRIB_WRONG_STEP_UNIT : Int := -26
def GRIB_INVALID_FILE : Int := -27
def GRIB_INVALID_GRIB : Int := -28
def GRIB_INVALID_INDEX : Int := -29
def GRIB_INVALID_ITERATOR : Int := -30
def GRIB_INVALID_KEYS_ITERATOR : Int := -31
def GRIB_INVALID_NEAREST : Int := -32
def GRIB_INVALID_ORDERBY : Int := -33
def GRIB_MISSING_KEY : Int := -34
def GRIB_OUT_OF_AREA : Int := -35
def GRIB_CONCEPT_NO_MATCH : Int := -36
def GRIB_HASH_ARRAY_NO_MATCH : Int := -37
def GRIB_NO_DEFINITIONS : Int := -38
def GRIB_WRONG_TYPE : Int := -39
def GRIB_END : Int := -40
def GRIB_NO_VALUES : Int := -41
def GRIB_WRONG_GRID : Int := -42
def GRIB_END_OF_INDEX : Int := -43
def GRIB_NULL_INDEX : Int := -44
def GRIB_PREMATURE_END_OF_FILE : Int := -45
def GRIB_INTERNAL_ARRAY_TOO_SMALL : Int := -46
def GRIB_MESSAGE_TOO_LARGE : Int := -47
def GRIB_CONSTANT_FIELD : Int := -48
def GRIB_SWITCH_NO_MATCH : Int := -49
def GRIB_UNDERFLOW : Int := -50
def GRIB_MESSAGE_MALFORMED : Int := -51
def GRIB_CORRUPTED_INDEX : Int := -52
def GRIB_INVALID_BPV : Int := -53
def GRIB_DIFFERENT_EDITION : Int := -54
def GRIB_VALUE_DIFFERENT : Int := -55
def GRIB_INVALID_KEY_VALUE : Int := -56
def GRIB_STRING_TOO_SMALL : Int := -57
def GRIB_WRONG_CONVERSION : Int := -58
def GRIB_MISSING_BUFR_ENTRY : Int := -59
def GRIB_NULL_POINTER : Int := -60
def GRIB_ATTRIBUTE_CLASH : Int := -61
def GRIB_TOO_MANY_ATTRIBUTES : Int := -62
def GRIB_ATTRIBUTE_NOT_FOUND : Int := -63
def GRIB_UNSUPPORTED_EDITION : Int := -64
def GRIB_OUT_OF_RANGE : Int := -65
def GRIB_WRONG_BITMAP_SIZE : Int := -66

/-- The full error-code table of the headers: name paired with value, in
declaration order. -/
def gribErrorCodes : List (String × Int) :=
  [("GRIB_SUCCESS", GRIB_SUCCESS),
   ("GRIB_END_OF_FILE", GRIB_END_OF_FILE),
   ("GRIB_INTERNAL_ERROR", GRIB_INTERNAL_ERROR),
   ("GRIB_BUFFER_TOO_SMALL", GRIB_BUFFER_TOO_SMALL),
   ("GRIB_NOT_IMPLEMENTED", GRIB_NOT_IMPLEMENTED),
   ("GRIB_7777_NOT_FOUND", GRIB_7777_NOT_FOUND),
   ("GRIB_ARRAY_TOO_SMALL", GRIB_ARRAY_TOO_SMALL),
   ("GRIB_FILE_NOT_FOUND", GRIB_FILE_NOT_FOUND),
   ("GRIB_CODE_NOT_FOUND_IN_TABLE", GRIB_CODE_NOT_FOUND_IN_TABLE),
   ("GRIB_WRONG_ARRAY_SIZE", GRIB_WRONG_ARRAY_SIZE),
   ("GRIB_NOT_FOUND", GRIB_NOT_FOUND),
   ("GRIB_IO_PROBLEM", GRIB_IO_PROBLEM),
   ("GRIB_INVALID_MESSAGE", GRIB_INVALID_MESSAGE),
   ("GRIB_DECODING_ERROR", GRIB_DECODING_ERROR),
   ("GRIB_ENCODING_ERROR", GRIB_ENCODING_ERROR),
   ("GRIB_NO_MORE_IN_SET", GRIB_NO_MORE_IN_SET),
   ("GRIB_GEOCALCULUS_PROBLEM", GRIB_GEOCALCULUS_PROBLEM),
   ("GRIB_OUT_OF_MEMORY", GRIB_OUT_OF_MEMORY),
   ("GRIB_READ_ONLY", GRIB_READ_ONLY),
   ("GRIB_INVALID_ARGUMENT", GRIB_INVALID_ARGUMENT),
   ("GRIB_NULL_HANDLE", GRIB_NULL_HANDLE),
   ("GRIB_INVALID_SECTION_NUMBER", GRIB_INVALID_SECTION_NUMBER),
   ("GRIB_VALUE_CANNOT_BE_MISSING", GRIB_VALUE_CANNOT_BE_MISSING),
   ("GRIB_WRONG_LENGTH", GRIB_WRONG_LENGTH),
   ("GRIB_INVALID_TYPE", GRIB_INVALID_TYPE),
   ("GRIB_WRONG_STEP", GRIB_WRONG_STEP),
   ("GRIB_WRONG_STEP_UNIT", GRIB_WRONG_STEP_UNIT),
   ("GRIB_INVALID_FILE", GRIB_INVALID_FILE),
   ("GRIB_INVALID_GRIB", GRIB_INVALID_GRIB),
   ("GRIB_INVALID_INDEX", GRIB_INVALID_INDEX),
   ("GRIB_INVALID_ITERATOR", GRIB_INVALID_ITERATOR),
   ("GRIB_INVALID_KEYS_ITERATOR", GRIB_INVALID_KEYS_ITERATOR),
   ("GRIB_INVALID_NEAREST", GRIB_INVALID_NEAREST),
   ("GRIB_INVALID_ORDERBY", GRIB_INVALID_ORDERBY),
   ("GRIB_MISSING_KEY", GRIB_MISSING_KEY),
   ("GRIB_OUT_OF_AREA", GRIB_OUT_OF_AREA),
   ("GRIB_CONCEPT_NO_MATCH", GRIB_CONCEPT_NO_MATCH),
   ("GRIB_HASH_ARRAY_NO_MATCH", GRIB_HASH_ARRAY_NO_MATCH),
   ("GRIB_NO_DEFINITIONS", GRIB_NO_DEFINITIONS),
   ("GRIB_WRONG_TYPE", GRIB_WRONG_TYPE),
   ("GRIB_END", GRIB_END),
   ("GRIB_NO_VALUES", GRIB_NO_VALUES),
   ("GRIB_WRONG_GRID", GRIB_WRONG_GRID),
   ("GRIB_END_OF_INDEX", GRIB_END_OF_INDEX),
   ("GRIB_NULL_INDEX", GRIB_NULL_INDEX),
   ("GRIB_PREMATURE_END_OF_FILE", GRIB_PREMATURE_END_OF_FILE),
   ("GRIB_INTERNAL_ARRAY_TOO_SMALL", GRIB_INTERNAL_ARRAY_TOO_SMALL),
   ("GRIB_MESSAGE_TOO_LARGE", GRIB_MESSAGE_TOO_LARGE),
   ("GRIB_CONSTANT_FIELD", GRIB_CONSTANT_FIELD),
   ("GRIB_SWITCH_NO_MATCH", GRIB_SWITCH_NO_MATCH),
   ("GRIB_UNDERFLOW", GRIB_UNDERFLOW),
   ("GRIB_MESSAGE_MALFORMED", GRIB_MESSAGE_MALFORMED),
   ("GRIB_CORRUPTED_INDEX", GRIB_CORRUPTED_INDEX),
   ("GRIB_INVALID_BPV", GRIB_INVALID_BPV),
   ("GRIB_DIFFERENT_EDITION", GRIB_DIFFERENT_EDITION),
   ("GRIB_VALUE_DIFFERENT", GRIB_VALUE_DIFFERENT),
   ("GRIB_INVALID_KEY_VALUE", GRIB_INVALID_KEY_VALUE),
   ("GRIB_STRING_TOO_SMALL", GRIB_STRING_TOO_SMALL),
   ("GRIB_WRONG_CONVERSION", GRIB_WRONG_CONVERSION),
   ("GRIB_MISSING_BUFR_ENTRY", GRIB_MISSING_BUFR_ENTRY),
   ("GRIB_NULL_POINTER", GRIB_NULL_POINTER),
   ("GRIB_ATTRIBUTE_CLASH", GRIB_ATTRIBUTE_CLASH),
   ("GRIB_TOO_MANY_ATTRIBUTES", GRIB_TOO_MANY_ATTRIBUTES),
   ("GRIB_ATTRIBUTE_NOT_FOUND", GRIB_ATTRIBUTE_NOT_FOUND),
   ("GRIB_UNSUPPORTED_EDITION", GRIB_UNSUPPORTED_EDITION),
   ("GRIB_OUT_OF_RANGE", GRIB_OUT_OF_RANGE),
   ("GRIB_WRONG_BITMAP_SIZE", GRIB_WRONG_BITMAP_SIZE)]

/-- Claim C1: the contract constants of the C ABI.  The product-kind
enumeration has members ANY, GRIB, BUFR, METAR, GTS, TAF in that order
(values 0 through 5); the key type tags are undefined=0, long=1, double=2,
string=3, bytes=4, section=5, label=6, missing=7; and the error-code table
has success exactly 0, every failure code negative and pairwise distinct,
with end-of-file = -1, end-of-index = -43, key-not-found = -10,
buffer-too-small = -3, array-too-small = -6 and invalid-type = -24. -/
theorem C1_abi_constants :
    productKindMembers =
      ["PRODUCT_ANY", "PRODUCT_GRIB", "PRODUCT_BUFR", "PRODUCT_METAR",
       "PRODUCT_GTS", "PRODUCT_TAF"]
    ∧ productKindValue "PRODUCT_ANY" = some 0
    ∧ productKindValue "PRODUCT_GRIB" = some 1
    ∧ productKindValue "PRODUCT_BUFR" = some 2
    ∧ productKindValue "PRODUCT_METAR" = some 3
    ∧ productKindValue "PRODUCT_GTS" = some 4
    ∧ productKindValue "PRODUCT_TAF" = some 5
    ∧ gribTypeTags.lookup "GRIB_TYPE_UNDEFINED" = some 0
    ∧ gribTypeTags.lookup "GRIB_TYPE_LONG" = some 1
    ∧ gribTypeTags.lookup "GRIB_TYPE_DOUBLE" = some 2
    ∧ gribTypeTags.lookup "GRIB_TYPE_STRING" = some 3
    ∧ gribTypeTags.lookup "GRIB_TYPE_BYTES" = some 4
    ∧ gribTypeTags.lookup "GRIB_TYPE_SECTION" = some 5
    ∧ gribTypeTags.lookup "GRIB_TYPE_LABEL" = some 6
    ∧ gribTypeTags.lookup "GRIB_TYPE_MISSING" = some 7
    ∧ gribErrorCodes.lookup "GRIB_SUCCESS" = some 0
    ∧ (gribErrorCodes.all fun e => e.1 = "GRIB_SUCCESS" || decide (e.2 < 0))
    ∧ (gribErrorCodes.map Prod.snd).Nodup
    ∧ gribErrorCodes.lookup "GRIB_END_OF_FILE" = some (-1)
    ∧ gribErrorCodes.lookup "GRIB_END_OF_INDEX" = some (-43)
    ∧ gribErrorCodes.lookup "GRIB_NOT_FOUND" = some (-10)
    ∧ gribErrorCodes.lookup "GRIB_BUFFER_TOO_SMALL" = some (-3)
    ∧ gribErrorCodes.lookup "GRIB_ARRAY_TOO_SMALL" = some (-6)
    ∧ gribErrorCodes.lookup "GRIB_INVALID_TYPE" = some (-24) := by
  decide

/-! ## Function prototypes.

A C prototype is modelled as its name, return type and parameter types.
Parameter names do not contribute to a C signature and are not recorded.
`codes_handle`/`grib_handle`, `codes_context`/`grib_context` are typedefs of
the same structs and are identified. -/

inductive CType where
  | intT
  | longT
  | ulongT
  | doubleT
  | charT
  | ucharT
  | voidT
  | sizeT
  | fileT
  | handleT
  | contextT
  | keysIterT
  | indexT
  | ptr : CType → CType
  | constT : CType → CType
deriving DecidableEq, Repr

structure CProto where
  name : String
  ret : CType
  args : List CType
deriving DecidableEq, Repr

def pHandle : CType := CType.ptr CType.handleT
def pContext : CType := CType.ptr CType.contextT
def pIndex : CType := CType.ptr CType.indexT
def pKeysIter : CType := CType.ptr CType.keysIterT
def pConstChar : CType := CType.ptr (CType.constT CType.charT)
def pChar : CType := CType.ptr CType.charT
def pSize : CType := CType.ptr CType.sizeT
def pInt : CType := CType.ptr CType.intT
def pLong : CType := CType.ptr CType.longT
def pDouble : CType := CType.ptr CType.doubleT

/-- Prototypes declared in `src/cfgrib/eccodes.h`, in declaration order
(lines 103-445). -/
def cfgribEccodesProtos : List CProto :=
  [⟨"codes_index_new_from_file", pIndex, [pContext, pChar, pConstChar, pInt]⟩,
   ⟨"codes_index_get_size", CType.intT, [pIndex, pConstChar, pSize]⟩,
   ⟨"codes_index_get_long", CType.intT, [pIndex, pConstChar, pLong, pSize]⟩,
   ⟨"codes_index_get_double", CType.intT, [pIndex, pConstChar, pDouble, pSize]⟩,
   ⟨"codes_index_get_string", CType.intT, [pIndex, pConstChar, CType.ptr pChar, pSize]⟩,
   ⟨"codes_index_select_long", CType.intT, [pIndex, pConstChar, CType.longT]⟩,
   ⟨"codes_index_select_double", CType.intT, [pIndex, pConstChar, CType.doubleT]⟩,
   ⟨"codes_index_select_string", CType.intT, [pIndex, pConstChar, pChar]⟩,
   ⟨"codes_handle_new_from_index", pHandle, [pIndex, pInt]⟩,
   ⟨"codes_index_delete", CType.voidT, [pIndex]⟩,
   ⟨"codes_write_message", CType.intT, [pHandle, pConstChar, pConstChar]⟩,
   ⟨"codes_grib_handle_new_from_samples", pHandle, [pContext, pConstChar]⟩,
   ⟨"codes_handle_delete", CType.intT, [pHandle]⟩,
   ⟨"codes_get_message", CType.intT,
     [pHandle, CType.ptr (CType.ptr (CType.constT CType.voidT)), pSize]⟩,
   ⟨"codes_grib_get_data", CType.intT, [pHandle, pDouble, pDouble, pDouble]⟩,
   ⟨"codes_get_size", CType.intT, [pHandle, pConstChar, pSize]⟩,
   ⟨"codes_get_length", CType.intT, [pHandle, pConstChar, pSize]⟩,
   ⟨"codes_get_string", CType.intT, [pHandle, pConstChar, pChar, pSize]⟩,
   ⟨"codes_get_string_array", CType.intT, [pHandle, pConstChar, CType.ptr pChar, pSize]⟩,
   ⟨"codes_get_bytes", CType.intT, [pHandle, pConstChar, CType.ptr CType.ucharT, pSize]⟩,
   ⟨"codes_get_double_array", CType.intT, [pHandle, pConstChar, pDouble, pSize]⟩,
   ⟨"codes_get_long_array", CType.intT, [pHandle, pConstChar, pLong, pSize]⟩,
   ⟨"codes_set_long", CType.intT, [pHandle, pConstChar, CType.longT]⟩,
   ⟨"codes_set_double", CType.intT, [pHandle, pConstChar, CType.doubleT]⟩,
   ⟨"codes_set_string", CType.intT, [pHandle, pConstChar, pConstChar, pSize]⟩,
   ⟨"codes_set_bytes", CType.intT,
     [pHandle, pConstChar, CType.ptr (CType.constT CType.ucharT), pSize]⟩,
   ⟨"codes_set_double_array", CType.intT,
     [pHandle, pConstChar, CType.ptr (CType.constT CType.doubleT), CType.sizeT]⟩,
   ⟨"codes_keys_iterator_new", pKeysIter, [pHandle, CType.ulongT, pConstChar]⟩,
   ⟨"codes_keys_iterator_next", CType.intT, [pKeysIter]⟩,
   ⟨"codes_keys_iterator_get_name", pConstChar, [pKeysIter]⟩,
   ⟨"codes_keys_iterator_delete", CType.intT, [pKeysIter]⟩,
   ⟨"codes_get_native_type", CType.intT, [pHandle, pConstChar, pInt]⟩,
   ⟨"grib_new_from_file", pHandle, [pContext, CType.ptr CType.fileT, CType.intT, pInt]⟩,
   ⟨"grib_get_error_message", pConstChar, [CType.intT]⟩,
   ⟨"grib_get_gaussian_latitudes", CType.intT, [CType.longT, pDouble]⟩]

/-- Prototypes declared in `src/cfgrib/grib_api.h`, in declaration order
(lines 51-54). -/
def cfgribGribApiProtos : List CProto :=
  [⟨"grib_get_error_message", pConstChar, [CType.intT]⟩,
   ⟨"grib_get_gaussian_latitudes", CType.intT, [CType.longT, pDouble]⟩]

/-- Prototypes declared in `src/eccodes_grib/eccodes.h`, in declaration order
(lines 8-81). -/
def eccodesGribProtos : List CProto :=
  [⟨"grib_get_error_message", pConstChar, [CType.intT]⟩,
   ⟨"grib_get_gaussian_latitudes", CType.intT, [CType.longT, pDouble]⟩,
   ⟨"codes_index_new_from_file", pIndex, [pContext, pChar, pConstChar, pInt]⟩,
   ⟨"codes_index_get_size", CType.intT, [pIndex, pConstChar, pSize]⟩,
   ⟨"codes_index_get_long", CType.intT, [pIndex, pConstChar, pLong, pSize]⟩,
   ⟨"codes_index_get_double", CType.intT, [pIndex, pConstChar, pDouble, pSize]⟩,
   ⟨"codes_index_get_string", CType.intT, [pIndex, pConstChar, CType.ptr pChar, pSize]⟩,
   ⟨"codes_index_select_long", CType.intT, [pIndex, pConstChar, CType.longT]⟩,
   ⟨"codes_index_select_double", CType.intT, [pIndex, pConstChar, CType.doubleT]⟩,
   ⟨"codes_index_select_string", CType.intT, [pIndex, pConstChar, pChar]⟩,
   ⟨"codes_handle_new_from_index", pHandle, [pIndex, pInt]⟩,
   ⟨"codes_index_delete", CType.voidT, [pIndex]⟩,
   ⟨"codes_get_message", CType.intT,
     [pHandle, CType.ptr (CType.ptr (CType.constT CType.voidT)), pSize]⟩,
   ⟨"codes_write_message", CType.intT, [pHandle, pConstChar, pConstChar]⟩,
   ⟨"codes_grib_handle_new_from_samples", pHandle, [pContext, pConstChar]⟩,
   ⟨"codes_handle_delete", CType.intT, [pHandle]⟩,
   ⟨"codes_grib_get_data", CType.intT, [pHandle, pDouble, pDouble, pDouble]⟩,
   ⟨"codes_get_size", CType.intT, [pHandle, pConstChar, pSize]⟩,
   ⟨"codes_get_length", CType.intT, [pHandle, pConstChar, pSize]⟩,
   ⟨"codes_get_string_array", CType.intT, [pHandle, pConstChar, CType.ptr pChar, pSize]⟩,
   ⟨"codes_get_double_array", CType.intT, [pHandle, pConstChar, pDouble, pSize]⟩,
   ⟨"codes_get_long_array", CType.intT, [pHandle, pConstChar, pLong, pSize]⟩,
   ⟨"codes_set_long", CType.intT, [pHandle, pConstChar, CType.longT]⟩,
   ⟨"codes_set_double", CType.intT, [pHandle, pConstChar, CType.doubleT]⟩,
   ⟨"codes_set_string", CType.intT, [pHandle, pConstChar, pConstChar, pSize]⟩,
   ⟨"codes_set_double_array", CType.intT,
     [pHandle, pConstChar, CType.ptr (CType.constT CType.doubleT), CType.sizeT]⟩,
   ⟨"codes_get_native_type", CType.intT, [pHandle, pConstChar, pInt]⟩,
   ⟨"codes_keys_iterator_new", pKeysIter, [pHandle, CType.ulongT, pConstChar]⟩,
   ⟨"codes_keys_iterator_next", CType.intT, [pKeysIter]⟩,
   ⟨"codes_keys_iterator_get_name", pConstChar, [pKeysIter]⟩,
   ⟨"codes_keys_iterator_delete", CType.intT, [pKeysIter]⟩,
   ⟨"grib_new_from_file", pHandle, [pContext, CType.ptr CType.fileT, CType.intT, pInt]⟩]

/-- The names of all functions declared anywhere in the three headers. -/
def allDeclaredNames : List String :=
  (cfgribEccodesProtos ++ cfgribGribApiProtos ++ eccodesGribProtos).map CProto.name

/-- `true` when a function of the given name is declared in one of the
three headers. -/
def declaresFunction (n : String) : Bool :=
  allDeclaredNames.any fun m => m = n

/-- `true` when prototype `p` occurs (same name, return type and parameter
types) in the list `l`. -/
def protoInList (p : CProto) (l : List CProto) : Bool :=
  l.any fun q => q = p

/-- Every prototype of the three headers, concatenated. -/
def allProtos : List CProto :=
  cfgribEccodesProtos ++ cfgribGribApiProtos ++ eccodesGribProtos

/-- Claim C7 fails as stated: the headers declare the typed set accessor
for scalar long (`codes_set_long`) but no typed get accessor for scalar
long (`codes_get_long` is nowhere declared, it is only mentioned in a
`see` comment); likewise scalar double has a set but no get, and the
long-array and string-array shapes have a get but no set. -/
theorem C7_counterexample :
    declaresFunction "codes_set_long" = true
    ∧ declaresFunction "codes_get_long" = false
    ∧ declaresFunction "codes_set_double" = true
    ∧ declaresFunction "codes_get_double" = false
    ∧ declaresFunction "codes_get_long_array" = true
    ∧ declaresFunction "codes_set_long_array" = false
    ∧ declaresFunction "codes_get_string_array" = true
    ∧ declaresFunction "codes_set_string_array" = false := by
  decide

/-- Claim C7, amended: the headers declare typed set accessors for scalar
long, scalar double, scalar string, raw bytes and double arrays, and typed
get accessors for scalar string, raw bytes and long/double/string arrays;
the scalar long and scalar double get accessors and the long-array and
string-array set accessors are not declared. -/
theorem C7_accessor_surface :
    declaresFunction "codes_get_string" = true
    ∧ declaresFunction "codes_get_bytes" = true
    ∧ declaresFunction "codes_get_long_array" = true
    ∧ declaresFunction "codes_get_double_array" = true
    ∧ declaresFunction "codes_get_string_array" = true
    ∧ declaresFunction "codes_set_long" = true
    ∧ declaresFunction "codes_set_double" = true
    ∧ declaresFunction "codes_set_string" = true
    ∧ declaresFunction "codes_set_bytes" = true
    ∧ declaresFunction "codes_set_double_array" = true
    ∧ declaresFunction "codes_get_long" = false
    ∧ declaresFunction "codes_get_double" = false
    ∧ declaresFunction "codes_set_long_array" = false
    ∧ declaresFunction "codes_set_string_array" = false := by
  decide

/-- Claim C8 fails as stated: `codes_index_new_from_file` is declared in
`src/cfgrib/eccodes.h` but no function of that name is declared in
`src/cfgrib/grib_api.h`, so not every prototype occurs in all three files. -/
theorem C8_counterexample :
    (cfgribEccodesProtos.any fun p => p.name = "codes_index_new_from_file") = true
    ∧ (cfgribGribApiProtos.any fun p => p.name = "codes_index_new_from_file") = false := by
  decide

/-- Claim C8, amended: the prototype sets of the three files are nested
rather than equal.  Both prototypes of `grib_api.h` occur with identical
signatures in the other two files; every prototype of
`src/eccodes_grib/eccodes.h` occurs with an identical signature in
`src/cfgrib/eccodes.h`; any two same-named declarations anywhere in the
three files have identical signatures; but `src/cfgrib/eccodes.h` declares
prototypes absent from the other files (such as `codes_get_string`), so
not every prototype occurs three times. -/
theorem C8_nested_prototype_surfaces :
    (cfgribGribApiProtos.all fun p =>
       protoInList p cfgribEccodesProtos && protoInList p eccodesGribProtos) = true
    ∧ (eccodesGribProtos.all fun p => protoInList p cfgribEccodesProtos) = true
    ∧ (allProtos.all fun p => allProtos.all fun q => q.name ≠ p.name || q = p) = true
    ∧ (cfgribEccodesProtos.all fun p => protoInList p eccodesGribProtos) = false
    ∧ (cfgribEccodesProtos.any fun p => p.name = "codes_get_string") = true
    ∧ (eccodesGribProtos.any fun p => p.name = "codes_get_string") = false := by
  decide

/-! ## Forward-only cursor model.

The spec describes three lazy, forward-only drains: `grib_new_from_file`
over a stream, `codes_handle_new_from_index` over an index, and
`codes_keys_iterator_next` over a handle's key names.  All three scan
forward for the next element satisfying a predicate and signal a
distinguished terminal outcome once none remains.  `scanNext` is that
single step and `drainAux`/`drainAll` iterate it to exhaustion. -/

/-- Modelled from the spec: one step of a forward-only cursor.  Scans the
remaining elements for the first one satisfying `p`; on a hit returns it
together with the elements after it, otherwise reports exhaustion with an
empty remainder (so the terminal state is absorbing). -/
def scanNext {α : Type} (p : α → Bool) : List α → Option α × List α
  | [] => (none, [])
  | x :: xs => if p x then (some x, xs) else scanNext p xs

/-- Iterate `scanNext` until it reports exhaustion, collecting the hits;
`fuel` bounds the number of steps.  Returns the hits and the final
remainder. -/
def drainAux {α : Type} (p : α → Bool) : Nat → List α → List α × List α
  | 0, l => ([], l)
  | fuel + 1, l =>
    match scanNext p l with
    | (none, rest) => ([], rest)
    | (some x, rest) =>
      let r := drainAux p fuel rest
      (x :: r.1, r.2)

/-- Full drain of a forward-only cursor: every element the successive
`scanNext` calls produce, and the final remainder. -/
def drainAll {α : Type} (p : α → Bool) (l : List α) : List α × List α :=
  drainAux p l.length l

theorem scanNext_none {α : Type} (p : α → Bool) (l rest : List α)
    (h : scanNext p l = (none, rest)) : l.filter p = [] ∧ rest = [] := by
  induction l with
  | nil =>
    simp only [scanNext] at h
    exact ⟨rfl, (Prod.mk.injEq _ _ _ _ ▸ h).2.symm⟩
  | cons x xs ih =>
    cases hx : p x with
    | true => simp [scanNext, hx] at h
    | false =>
      simp only [scanNext, hx, Bool.false_eq_true, if_false] at h
      have hr := ih h
      simp [List.filter_cons, hx, hr.1, hr.2]

theorem scanNext_some {α : Type} (p : α → Bool) (l : List α) (x : α)
    (rest : List α) (h : scanNext p l = (some x, rest)) :
    l.filter p = x :: rest.filter p ∧ rest.length < l.length := by
  induction l with
  | nil => simp [scanNext] at h
  | cons y ys ih =>
    cases hy : p y with
    | true =>
      simp only [scanNext, hy, if_true] at h
      obtain ⟨hxy, hrest⟩ := Prod.mk.injEq _ _ _ _ ▸ h
      cases hxy
      subst hrest
      exact ⟨by simp [List.filter_cons, hy], by simp⟩
    | false =>
      simp only [scanNext, hy, Bool.false_eq_true, if_false] at h
      have hr := ih h
      exact ⟨by simp [List.filter_cons, hy, hr.1], Nat.lt_succ_of_lt hr.2⟩

theorem drainAux_eq_filter {α : Type} (p : α → Bool) :
    ∀ (fuel : Nat) (l : List α), l.length ≤ fuel →
      drainAux p fuel l = (l.filter p, []) := by
  intro fuel
  induction fuel with
  | zero =>
    intro l hl
    have : l = [] := List.eq_nil_of_length_eq_zero (Nat.le_zero.mp hl)
    subst this
    rfl
  | succ n ih =>
    intro l hl
    cases hs : scanNext p l with
    | mk o rest =>
      cases o with
      | none =>
        have h2 := scanNext_none p l rest hs
        simp [drainAux, hs, h2.1, h2.2]
      | some x =>
        have h2 := scanNext_some p l x rest hs
        have hlen : rest.length ≤ n := Nat.lt_succ_iff.mp (Nat.lt_of_lt_of_le h2.2 hl)
        simp [drainAux, hs, ih rest hlen, h2.1]

theorem drainAll_eq_filter {α : Type} (p : α → Bool) (l : List α) :
    drainAll p l = (l.filter p, []) :=
  drainAux_eq_filter p l.length l (Nat.le_refl _)

/-! ## Handle key space. -/

/-- Modelled from the spec: the key space of a `grib_handle`.  The wrapped
codec is not part of this repository; per the header docs a key may occur
several times in one message, so a handle is the sequence of key writes in
message order, each write carrying the occurrence's coded values.  The
value type is a parameter: `Char` buffers for string keys, `Int` for long
keys, and so on. -/
abbrev GribHandle (α : Type) := List (String × List α)

/-- Modelled from the spec: the value the typed get accessors fetch.  Per
the header docs ("if several keys of the same name are present, the last
one is returned") this is the last-written occurrence of the key, `none`
when the key is absent. -/
def lastWrite {α : Type} : GribHandle α → String → Option (List α)
  | [], _ => none
  | e :: rest, key =>
    match lastWrite rest key with
    | some v => some v
    | none => if e.1 = key then some e.2 else none

/-- Modelled from the spec: the count `codes_get_size` reports.  Per the
header doc ("if several keys of the same name are present, the total sum
is returned") this sums the coded-value counts over every occurrence,
`none` when the key is absent. -/
def totalSize {α : Type} : GribHandle α → String → Option Nat
  | [], _ => none
  | e :: rest, key =>
    let r := totalSize rest key
    if e.1 = key then some (e.2.length + r.getD 0) else r

/-- Modelled from the spec: `codes_get_size` returns 0 and the total
number of coded values of the key, or a negative error when the key is
absent. -/
def codes_get_size {α : Type} (h : GribHandle α) (key : String) : Int × Nat :=
  match totalSize h key with
  | none => (GRIB_NOT_FOUND, 0)
  | some n => (GRIB_SUCCESS, n)

/-- Modelled from the spec: the two-phase size-then-fetch contract shared
by every array and string get accessor.  The caller passes a buffer and
its declared capacity `len`.  When the key is absent the call fails and
the buffer is untouched; when the capacity is below the coded size the
call fails with the accessor's too-small code, leaves the buffer untouched
and reports the required size; otherwise it succeeds with the complete
value and its size. -/
def getWithBuffer {α : Type} (tooSmallErr : Int) (h : GribHandle α)
    (key : String) (buf : List α) (len : Nat) : Int × List α × Nat :=
  match lastWrite h key with
  | none => (GRIB_NOT_FOUND, buf, len)
  | some v =>
    if len < v.length then (tooSmallErr, buf, v.length)
    else (GRIB_SUCCESS, v, v.length)

/-- Modelled from the spec: `codes_get_string` fetches the string value of
the last occurrence of the key into a character buffer, failing with
`GRIB_BUFFER_TOO_SMALL` when the buffer capacity is below the string
length. -/
def codes_get_string (h : GribHandle Char) (key : String) (mesg : List Char)
    (len : Nat) : Int × List Char × Nat :=
  getWithBuffer GRIB_BUFFER_TOO_SMALL h key mesg len

/-- Modelled from the spec: `codes_get_bytes` fetches the raw bytes of the
last occurrence of the key into a byte buffer. -/
def codes_get_bytes (h : GribHandle Nat) (key : String) (bytes : List Nat)
    (len : Nat) : Int × List Nat × Nat :=
  getWithBuffer GRIB_BUFFER_TOO_SMALL h key bytes len

/-- Modelled from the spec: `codes_get_long_array` fetches the long-array
value of the last occurrence of the key, failing with
`GRIB_ARRAY_TOO_SMALL` when the array capacity is below the coded size. -/
def codes_get_long_array (h : GribHandle Int) (key : String) (vals : List Int)
    (len : Nat) : Int × List Int × Nat :=
  getWithBuffer GRIB_ARRAY_TOO_SMALL h key vals len

/-- Modelled from the spec: `codes_get_double_array` fetches the
double-array value of the last occurrence of the key.  Doubles are
modelled as exact rationals; the accessors only store and return them, no
floating-point arithmetic is involved. -/
def codes_get_double_array (h : GribHandle Rat) (key : String)
    (vals : List Rat) (len : Nat) : Int × List Rat × Nat :=
  getWithBuffer GRIB_ARRAY_TOO_SMALL h key vals len

/-- Modelled from the spec: `codes_get_string_array` fetches the
string-array value of the last occurrence of the key. -/
def codes_get_string_array (h : GribHandle String) (key : String)
    (vals : List String) (len : Nat) : Int × List String × Nat :=
  getWithBuffer GRIB_ARRAY_TOO_SMALL h key vals len

theorem getLast?_cons_cases {α : Type} (a : α) (l : List α) :
    (a :: l).getLast? =
      match l.getLast? with
      | none => some a
      | some b => some b := by
  cases l with
  | nil => rfl
  | cons b t =>
    rw [List.getLast?_cons_cons]
    have hb : (b :: t).getLast?.isSome := by
      simp [List.getLast?_isSome]
    obtain ⟨v, hv⟩ := Option.isSome_iff_exists.mp hb
    rw [hv]

theorem lastWrite_eq_getLast {α : Type} (h : GribHandle α) (key : String) :
    lastWrite h key = ((h.filter fun e => e.1 = key).map Prod.snd).getLast? := by
  induction h with
  | nil => rfl
  | cons e rest ih =>
    cases he : decide (e.1 = key) with
    | true =>
      have he' : e.1 = key := of_decide_eq_true he
      rw [lastWrite, ih, List.filter_cons_of_pos (by simp [he']), List.map_cons,
        getLast?_cons_cases]
      cases ((rest.filter fun e => e.1 = key).map Prod.snd).getLast? with
      | none => simp [he']
      | some v => rfl
    | false =>
      have he' : ¬ e.1 = key := of_decide_eq_false he
      rw [lastWrite, ih, List.filter_cons_of_neg (by simp [he'])]
      cases ((rest.filter fun e => e.1 = key).map Prod.snd).getLast? with
      | none => simp [he']
      | some v => rfl

theorem totalSize_getD {α : Type} (h : GribHandle α) (key : String) :
    (totalSize h key).getD 0 =
      ((h.filter fun e => e.1 = key).map fun e => e.2.length).sum := by
  induction h with
  | nil => rfl
  | cons e rest ih =>
    cases he : decide (e.1 = key) with
    | true =>
      have he' : e.1 = key := of_decide_eq_true he
      rw [totalSize, List.filter_cons_of_pos (by simp [he'])]
      simp [he', ih]
    | false =>
      have he' : ¬ e.1 = key := of_decide_eq_false he
      rw [totalSize, List.filter_cons_of_neg (by simp [he'])]
      simp [he', ih]

theorem totalSize_none_iff {α : Type} (h : GribHandle α) (key : String) :
    totalSize h key = none ↔ (h.filter fun e => e.1 = key) = [] := by
  induction h with
  | nil => simp [totalSize]
  | cons e rest ih =>
    cases he : decide (e.1 = key) with
    | true =>
      have he' : e.1 = key := of_decide_eq_true he
      rw [totalSize, List.filter_cons_of_pos (by simp [he'])]
      simp [he']
    | false =>
      have he' : ¬ e.1 = key := of_decide_eq_false he
      rw [totalSize, List.filter_cons_of_neg (by simp [he'])]
      simp [he', ih]

theorem getWithBuffer_too_small {α : Type} (er : Int) (h : GribHandle α)
    (key : String) (buf : List α) (len : Nat) (v : List α)
    (hv : lastWrite h key = some v) (hlen : len < v.length) :
    getWithBuffer er h key buf len = (er, buf, v.length) := by
  simp [getWithBuffer, hv, hlen]

theorem getWithBuffer_success {α : Type} (er : Int) (h : GribHandle α)
    (key : String) (buf : List α) (len : Nat) (v : List α)
    (hv : lastWrite h key = some v) (hlen : v.length ≤ len) :
    getWithBuffer er h key buf len = (GRIB_SUCCESS, v, v.length) := by
  simp [getWithBuffer, hv, Nat.not_lt.mpr hlen]

/-- Claim C2: in a message where a key name occurs more than once, the
typed get accessors return the value of the last-written occurrence (the
last entry of the filtered write sequence), while `codes_get_size` returns
the total number of coded values summed over all occurrences; in
particular, for a key set twice with values (a, b), get returns b and
get_size returns 2. -/
theorem C2_last_write_vs_total_size {α : Type} (h : GribHandle α) (k : String)
    (hrep : 1 < (h.filter fun e => e.1 = k).length) :
    lastWrite h k = ((h.filter fun e => e.1 = k).map Prod.snd).getLast?
    ∧ codes_get_size h k =
        (GRIB_SUCCESS, ((h.filter fun e => e.1 = k).map fun e => e.2.length).sum)
    ∧ (∀ (hc : GribHandle Char) (buf : List Char) (n : Nat) (v : List Char),
        lastWrite hc k = some v → v.length ≤ n →
        codes_get_string hc k buf n = (GRIB_SUCCESS, v, v.length))
    ∧ (∀ (hl : GribHandle Int) (buf : List Int) (n : Nat) (v : List Int),
        lastWrite hl k = some v → v.length ≤ n →
        codes_get_long_array hl k buf n = (GRIB_SUCCESS, v, v.length))
    ∧ (∀ (hd : GribHandle Rat) (buf : List Rat) (n : Nat) (v : List Rat),
        lastWrite hd k = some v → v.length ≤ n →
        codes_get_double_array hd k buf n = (GRIB_SUCCESS, v, v.length))
    ∧ (∀ (hb : GribHandle Nat) (buf : List Nat) (n : Nat) (v : List Nat),
        lastWrite hb k = some v → v.length ≤ n →
        codes_get_bytes hb k buf n = (GRIB_SUCCESS, v, v.length))
    ∧ (∀ (hs : GribHandle String) (buf : List String) (n : Nat) (v : List String),
        lastWrite hs k = some v → v.length ≤ n →
        codes_get_string_array hs k buf n = (GRIB_SUCCESS, v, v.length))
    ∧ (∀ a b : α,
        lastWrite [(k, [a]), (k, [b])] k = some [b]
        ∧ codes_get_size [(k, [a]), (k, [b])] k = (GRIB_SUCCESS, 2)) := by
  refine ⟨lastWrite_eq_getLast h k, ?_, ?_, ?_, ?_, ?_, ?_, ?_⟩
  · have hne : (h.filter fun e => e.1 = k) ≠ [] := by
      intro h0
      rw [h0] at hrep
      simp at hrep
    have hns : totalSize h k ≠ none := by
      rw [Ne, totalSize_none_iff]
      exact hne
    obtain ⟨n, hn⟩ := Option.ne_none_iff_exists'.mp hns
    have hsum := totalSize_getD h k
    rw [hn] at hsum
    simp only [Option.getD_some] at hsum
    simp [codes_get_size, hn, hsum]
  · intro hc buf n v hv hlen
    exact getWithBuffer_success _ hc k buf n v hv hlen
  · intro hl buf n v hv hlen
    exact getWithBuffer_success _ hl k buf n v hv hlen
  · intro hd buf n v hv hlen
    exact getWithBuffer_success _ hd k buf n v hv hlen
  · intro hb buf n v hv hlen
    exact getWithBuffer_success _ hb k buf n v hv hlen
  · intro hs buf n v hv hlen
    exact getWithBuffer_success _ hs k buf n v hv hlen
  · intro a b
    refine ⟨?_, ?_⟩
    · simp [lastWrite]
    · simp [codes_get_size, totalSize]

/-- Witness for C2 at the concrete message `[("t", [1]), ("t", [2])]`. -/
theorem C2_last_write_vs_total_size_witness :
    1 < (([("t", [(1 : Int)]), ("t", [2])] : GribHandle Int).filter
          fun e => e.1 = "t").length
    ∧ lastWrite ([("t", [(1 : Int)]), ("t", [2])] : GribHandle Int) "t" =
        ((([("t", [(1 : Int)]), ("t", [2])] : GribHandle Int).filter
            fun e => e.1 = "t").map Prod.snd).getLast?
    ∧ codes_get_size ([("t", [(1 : Int)]), ("t", [2])] : GribHandle Int) "t" =
        (GRIB_SUCCESS, 2) :=
  ⟨by decide,
   (C2_last_write_vs_total_size [("t", [(1 : Int)]), ("t", [2])] "t" (by decide)).1,
   by decide⟩

/-- Claim C3: every array or string get accessor called on a present key
with a buffer capacity below the key's coded size fails with its too-small
error code, writes nothing into the caller's buffer, and reports the
required size through the length out-parameter; an immediate retry with a
buffer of the reported size succeeds with the complete value. -/
theorem C3_undersized_buffer_protocol (h : GribHandle Int) (k : String)
    (buf : List Int) (len : Nat) (v : List Int)
    (hv : lastWrite h k = some v) (hlen : len < v.length) :
    codes_get_long_array h k buf len = (GRIB_ARRAY_TOO_SMALL, buf, v.length)
    ∧ (∀ buf2 : List Int,
        codes_get_long_array h k buf2 v.length = (GRIB_SUCCESS, v, v.length))
    ∧ (∀ (hd : GribHandle Rat) (bufd : List Rat) (n : Nat) (w : List Rat),
        lastWrite hd k = some w → n < w.length →
        codes_get_double_array hd k bufd n = (GRIB_ARRAY_TOO_SMALL, bufd, w.length)
        ∧ ∀ bufd2, codes_get_double_array hd k bufd2 w.length
            = (GRIB_SUCCESS, w, w.length))
    ∧ (∀ (hc : GribHandle Char) (bufc : List Char) (n : Nat) (w : List Char),
        lastWrite hc k = some w → n < w.length →
        codes_get_string hc k bufc n = (GRIB_BUFFER_TOO_SMALL, bufc, w.length)
        ∧ ∀ bufc2, codes_get_string hc k bufc2 w.length
            = (GRIB_SUCCESS, w, w.length))
    ∧ (∀ (hb : GribHandle Nat) (bufb : List Nat) (n : Nat) (w : List Nat),
        lastWrite hb k = some w → n < w.length →
        codes_get_bytes hb k bufb n = (GRIB_BUFFER_TOO_SMALL, bufb, w.length)
        ∧ ∀ bufb2, codes_get_bytes hb k bufb2 w.length
            = (GRIB_SUCCESS, w, w.length))
    ∧ (∀ (hs : GribHandle String) (bufs : List String) (n : Nat) (w : List String),
        lastWrite hs k = some w → n < w.length →
        codes_get_string_array hs k bufs n = (GRIB_ARRAY_TOO_SMALL, bufs, w.length)
        ∧ ∀ bufs2, codes_get_string_array hs k bufs2 w.length
            = (GRIB_SUCCESS, w, w.length)) := by
  refine ⟨getWithBuffer_too_small _ h k buf len v hv hlen,
    fun buf2 => getWithBuffer_success _ h k buf2 v.length v hv (Nat.le_refl _),
    fun hd bufd n w hw hn =>
      ⟨getWithBuffer_too_small _ hd k bufd n w hw hn,
       fun bufd2 => getWithBuffer_success _ hd k bufd2 w.length w hw (Nat.le_refl _)⟩,
    fun hc bufc n w hw hn =>
      ⟨getWithBuffer_too_small _ hc k bufc n w hw hn,
       fun bufc2 => getWithBuffer_success _ hc k bufc2 w.length w hw (Nat.le_refl _)⟩,
    fun hb bufb n w hw hn =>
      ⟨getWithBuffer_too_small _ hb k bufb n w hw hn,
       fun bufb2 => getWithBuffer_success _ hb k bufb2 w.length w hw (Nat.le_refl _)⟩,
    fun hs bufs n w hw hn =>
      ⟨getWithBuffer_too_small _ hs k bufs n w hw hn,
       fun bufs2 => getWithBuffer_success _ hs k bufs2 w.length w hw (Nat.le_refl _)⟩⟩

/-- Witness for C3 at the concrete message `[("values", [7, 8, 9])]` with
a one-slot buffer. -/
theorem C3_undersized_buffer_protocol_witness :
    lastWrite ([("values", [(7 : Int), 8, 9])] : GribHandle Int) "values"
        = some [7, 8, 9]
    ∧ 1 < ([(7 : Int), 8, 9] : List Int).length
    ∧ codes_get_long_array [("values", [(7 : Int), 8, 9])] "values" [0] 1
        = (GRIB_ARRAY_TOO_SMALL, [0], 3)
    ∧ codes_get_long_array [("values", [(7 : Int), 8, 9])] "values" [0, 0, 0] 3
        = (GRIB_SUCCESS, [7, 8, 9], 3) :=
  ⟨by decide, by decide,
   (C3_undersized_buffer_protocol [("values", [(7 : Int), 8, 9])] "values"
      [0] 1 [7, 8, 9] (by decide) (by decide)).1,
   (C3_undersized_buffer_protocol [("values", [(7 : Int), 8, 9])] "values"
      [0] 1 [7, 8, 9] (by decide) (by decide)).2.1 [0, 0, 0]⟩

/-! ## Index. -/

/-- The value kind a key is indexed as: declared via `:l`, `:d`, `:s`, or
its native type resolved to one of these. -/
inductive KeyType where
  | tLong
  | tDouble
  | tString
deriving DecidableEq, Repr

/-- A recorded key value.  C doubles are modelled as exact rationals; the
index only stores and compares them. -/
inductive GribValue where
  | vLong : Int → GribValue
  | vDouble : Rat → GribValue
  | vString : String → GribValue
deriving DecidableEq, Repr

/-- Modelled from the spec: a `grib_index`.  The indexing engine is not
part of this repository; per the spec an index holds the fixed key set it
was built with (each with its declared or native type), the per-message
recorded values of those keys in file order, the active selections (one
pending value per selected key), and the remaining portion of the
forward-only handle cursor. -/
structure GribIndex where
  keys : List (String × KeyType)
  messages : List (List (String × GribValue))
  selections : List (String × GribValue)
  remaining : List (List (String × GribValue))
deriving DecidableEq, Repr

/-- `true` when the index was constructed with the given key. -/
def indexHasKey (idx : GribIndex) (key : String) : Bool :=
  idx.keys.any fun e => e.1 = key

/-- The distinct recorded values of a key across the indexed file, in
first-seen order. -/
def indexDistinctValues (idx : GribIndex) (key : String) : List GribValue :=
  (idx.messages.filterMap fun m => m.lookup key).dedup

/-- Modelled from the spec: `codes_index_get_size` reports the number of
distinct values of the key; the key must belong to the index, else the
call fails. -/
def codes_index_get_size (idx : GribIndex) (key : String) : Int × Nat :=
  if indexHasKey idx key then (GRIB_SUCCESS, (indexDistinctValues idx key).length)
  else (GRIB_NOT_FOUND, 0)

/-- Modelled from the spec: `codes_index_get_long` returns the distinct
long values of a key indexed with long type; the key must belong to the
index, else the call fails. -/
def codes_index_get_long (idx : GribIndex) (key : String) : Int × List Int :=
  if indexHasKey idx key then
    if idx.keys.lookup key = some KeyType.tLong then
      (GRIB_SUCCESS, (indexDistinctValues idx key).filterMap fun v =>
        match v with
        | GribValue.vLong n => some n
        | _ => none)
    else (GRIB_INVALID_TYPE, [])
  else (GRIB_NOT_FOUND, [])

/-- Modelled from the spec: `codes_index_get_double`, as
`codes_index_get_long` but for double-typed keys. -/
def codes_index_get_double (idx : GribIndex) (key : String) : Int × List Rat :=
  if indexHasKey idx key then
    if idx.keys.lookup key = some KeyType.tDouble then
      (GRIB_SUCCESS, (indexDistinctValues idx key).filterMap fun v =>
        match v with
        | GribValue.vDouble x => some x
        | _ => none)
    else (GRIB_INVALID_TYPE, [])
  else (GRIB_NOT_FOUND, [])

/-- Modelled from the spec: `codes_index_get_string`, as
`codes_index_get_long` but for string-typed keys. -/
def codes_index_get_string (idx : GribIndex) (key : String) : Int × List String :=
  if indexHasKey idx key then
    if idx.keys.lookup key = some KeyType.tString then
      (GRIB_SUCCESS, (indexDistinctValues idx key).filterMap fun v =>
        match v with
        | GribValue.vString s => some s
        | _ => none)
    else (GRIB_INVALID_TYPE, [])
  else (GRIB_NOT_FOUND, [])

/-- Replace the pending selection of a key. -/
def putSelection (sels : List (String × GribValue)) (key : String)
    (v : GribValue) : List (String × GribValue) :=
  (key, v) :: sels.filter fun s => ¬ s.1 = key

/-- Modelled from the spec: `codes_index_select_long` stores a long value
as the active filter for a long-typed index key and restarts the handle
cursor; the key must belong to the index, else the call fails. -/
def codes_index_select_long (idx : GribIndex) (key : String) (value : Int) :
    Int × GribIndex :=
  if indexHasKey idx key then
    if idx.keys.lookup key = some KeyType.tLong then
      (GRIB_SUCCESS,
       ⟨idx.keys, idx.messages,
        putSelection idx.selections key (GribValue.vLong value), idx.messages⟩)
    else (GRIB_INVALID_TYPE, idx)
  else (GRIB_NOT_FOUND, idx)

/-- Modelled from the spec: `codes_index_select_double`, as
`codes_index_select_long` but for double-typed keys. -/
def codes_index_select_double (idx : GribIndex) (key : String) (value : Rat) :
    Int × GribIndex :=
  if indexHasKey idx key then
    if idx.keys.lookup key = some KeyType.tDouble then
      (GRIB_SUCCESS,
       ⟨idx.keys, idx.messages,
        putSelection idx.selections key (GribValue.vDouble value), idx.messages⟩)
    else (GRIB_INVALID_TYPE, idx)
  else (GRIB_NOT_FOUND, idx)

/-- Modelled from the spec: `codes_index_select_string`, as
`codes_index_select_long` but for string-typed keys. -/
def codes_index_select_string (idx : GribIndex) (key : String) (value : String) :
    Int × GribIndex :=
  if indexHasKey idx key then
    if idx.keys.lookup key = some KeyType.tString then
      (GRIB_SUCCESS,
       ⟨idx.keys, idx.messages,
        putSelection idx.selections key (GribValue.vString value), idx.messages⟩)
    else (GRIB_INVALID_TYPE, idx)
  else (GRIB_NOT_FOUND, idx)

/-- `true` when a message's recorded values equal every active selection. -/
def matchesSelections (sels : List (String × GribValue))
    (m : List (String × GribValue)) : Bool :=
  sels.all fun s => decide (m.lookup s.1 = some s.2)

/-- Modelled from the spec: `codes_handle_new_from_index` returns the next
message compatible with the active selections, or a null handle with the
error set to `GRIB_END_OF_INDEX` once no compatible message remains. -/
def codes_handle_new_from_index (idx : GribIndex) :
    (Option (List (String × GribValue)) × Int) × GribIndex :=
  match scanNext (matchesSelections idx.selections) idx.remaining with
  | (none, rest) =>
    ((none, GRIB_END_OF_INDEX), ⟨idx.keys, idx.messages, idx.selections, rest⟩)
  | (some m, rest) =>
    ((some m, GRIB_SUCCESS), ⟨idx.keys, idx.messages, idx.selections, rest⟩)

/-- Successive calls to `codes_handle_new_from_index` until it signals
`GRIB_END_OF_INDEX`, collecting the returned handles. -/
def drainIndexAux : Nat → GribIndex → List (List (String × GribValue)) × GribIndex
  | 0, idx => ([], idx)
  | fuel + 1, idx =>
    match codes_handle_new_from_index idx with
    | ((none, _), idx2) => ([], idx2)
    | ((some m, _), idx2) =>
      let r := drainIndexAux fuel idx2
      (m :: r.1, r.2)

/-- Full drain of an index's handle cursor. -/
def drainIndex (idx : GribIndex) : List (List (String × GribValue)) × GribIndex :=
  drainIndexAux idx.remaining.length idx

theorem drainIndexAux_eq (fuel : Nat) :
    ∀ idx : GribIndex,
      drainIndexAux fuel idx =
        ((drainAux (matchesSelections idx.selections) fuel idx.remaining).1,
         ⟨idx.keys, idx.messages, idx.selections,
          (drainAux (matchesSelections idx.selections) fuel idx.remaining).2⟩) := by
  induction fuel with
  | zero => intro idx; rfl
  | succ n ih =>
    intro idx
    cases hs : scanNext (matchesSelections idx.selections) idx.remaining with
    | mk o rest =>
      cases o with
      | none =>
        simp [drainIndexAux, codes_handle_new_from_index, drainAux, hs]
      | some m =>
        simp only [drainIndexAux, codes_handle_new_from_index, drainAux, hs]
        rw [ih ⟨idx.keys, idx.messages, idx.selections, rest⟩]

theorem drainIndex_eq (idx : GribIndex) :
    drainIndex idx =
      (idx.remaining.filter (matchesSelections idx.selections),
       ⟨idx.keys, idx.messages, idx.selections, []⟩) := by
  rw [drainIndex, drainIndexAux_eq]
  rw [show drainAux (matchesSelections idx.selections) idx.remaining.length
        idx.remaining = (idx.remaining.filter (matchesSelections idx.selections), [])
      from drainAll_eq_filter _ _]

/-- The fixed two-message example index of the spec: messages
`{shortName=t, level=500}` and `{shortName=t, level=850}`, indexed on
`shortName` (string) and `level` (long). -/
def exampleMessage500 : List (String × GribValue) :=
  [("shortName", GribValue.vString "t"), ("level", GribValue.vLong 500)]

def exampleMessage850 : List (String × GribValue) :=
  [("shortName", GribValue.vString "t"), ("level", GribValue.vLong 850)]

def exampleIndex : GribIndex :=
  ⟨[("shortName", KeyType.tString), ("level", KeyType.tLong)],
   [exampleMessage500, exampleMessage850], [],
   [exampleMessage500, exampleMessage850]⟩

/-- `exampleIndex` after selecting `shortName=t` and `level=500`. -/
def exampleSelected : GribIndex :=
  (codes_index_select_long
    (codes_index_select_string exampleIndex "shortName" "t").2 "level" 500).2

/-- Claim C4: on an index all of whose keys have been selected, successive
calls to `codes_handle_new_from_index` return exactly the messages whose
recorded values equal every active selection; once those are exhausted
each further call returns a null handle with the error set to
`GRIB_END_OF_INDEX` (-43), a code distinct from 0 and from every other
code of the error table; in the two-message example, selecting
`shortName=t` and `level=500` yields exactly one handle followed by
end-of-index. -/
theorem C4_index_drain_then_end_of_index (idx : GribIndex)
    (_hsel : idx.keys.all (fun e => (idx.selections.lookup e.1).isSome) = true)
    (hfresh : idx.remaining = idx.messages) :
    (drainIndex idx).1 = idx.messages.filter (matchesSelections idx.selections)
    ∧ codes_handle_new_from_index (drainIndex idx).2
        = ((none, GRIB_END_OF_INDEX), (drainIndex idx).2)
    ∧ codes_handle_new_from_index
        (codes_handle_new_from_index (drainIndex idx).2).2
        = ((none, GRIB_END_OF_INDEX),
           (codes_handle_new_from_index (drainIndex idx).2).2)
    ∧ GRIB_END_OF_INDEX ≠ GRIB_SUCCESS
    ∧ (gribErrorCodes.filter fun e => decide (e.2 = GRIB_END_OF_INDEX)).map Prod.fst
        = ["GRIB_END_OF_INDEX"]
    ∧ (drainIndex exampleSelected).1 = [exampleMessage500]
    ∧ codes_handle_new_from_index (drainIndex exampleSelected).2
        = ((none, GRIB_END_OF_INDEX), (drainIndex exampleSelected).2) := by
  refine ⟨?_, ?_, ?_, by decide, by decide, by decide, by decide⟩
  · rw [drainIndex_eq, hfresh]
  · rw [drainIndex_eq]
    rfl
  · rw [drainIndex_eq]
    rfl

/-- Witness for C4 at the spec's two-message example. -/
theorem C4_index_drain_then_end_of_index_witness :
    exampleSelected.keys.all
        (fun e => (exampleSelected.selections.lookup e.1).isSome) = true
    ∧ exampleSelected.remaining = exampleSelected.messages
    ∧ (drainIndex exampleSelected).1
        = exampleSelected.messages.filter (matchesSelections exampleSelected.selections)
    ∧ codes_handle_new_from_index (drainIndex exampleSelected).2
        = ((none, GRIB_END_OF_INDEX), (drainIndex exampleSelected).2) :=
  ⟨by decide, by decide,
   (C4_index_drain_then_end_of_index exampleSelected (by decide) (by decide)).1,
   (C4_index_drain_then_end_of_index exampleSelected (by decide) (by decide)).2.1⟩

theorem lookup_some_hasKey {l : List (String × KeyType)} {key : String}
    {t : KeyType} (h : l.lookup key = some t) :
    (l.any fun e => e.1 = key) = true := by
  induction l with
  | nil => simp [List.lookup] at h
  | cons e rest ih =>
    rw [List.lookup] at h
    cases hk : key == e.1 with
    | true =>
      have : e.1 = key := (eq_of_beq hk).symm
      simp [List.any_cons, this]
    | false =>
      rw [hk] at h
      simp only [List.any_cons, Bool.or_eq_true]
      exact Or.inr (ih h)

/-- Claim C6: every index value-retrieval and selection call whose key is
not among the keys the index was constructed with fails with a nonzero
error; calls with an index key of the matching declared type succeed. -/
theorem C6_index_key_must_belong (idx : GribIndex) (key : String) (n : Int)
    (x : Rat) (s : String) :
    (indexHasKey idx key = false →
       (codes_index_get_size idx key).1 ≠ 0
       ∧ (codes_index_get_long idx key).1 ≠ 0
       ∧ (codes_index_get_double idx key).1 ≠ 0
       ∧ (codes_index_get_string idx key).1 ≠ 0
       ∧ (codes_index_select_long idx key n).1 ≠ 0
       ∧ (codes_index_select_double idx key x).1 ≠ 0
       ∧ (codes_index_select_string idx key s).1 ≠ 0)
    ∧ (indexHasKey idx key = true → (codes_index_get_size idx key).1 = 0)
    ∧ (idx.keys.lookup key = some KeyType.tLong →
         (codes_index_get_long idx key).1 = 0
         ∧ (codes_index_select_long idx key n).1 = 0)
    ∧ (idx.keys.lookup key = some KeyType.tDouble →
         (codes_index_get_double idx key).1 = 0
         ∧ (codes_index_select_double idx key x).1 = 0)
    ∧ (idx.keys.lookup key = some KeyType.tString →
         (codes_index_get_string idx key).1 = 0
         ∧ (codes_index_select_string idx key s).1 = 0) := by
  refine ⟨?_, ?_, ?_, ?_, ?_⟩
  · intro hmem
    refine ⟨?_, ?_, ?_, ?_, ?_, ?_, ?_⟩ <;>
      simp [codes_index_get_size, codes_index_get_long, codes_index_get_double,
        codes_index_get_string, codes_index_select_long, codes_index_select_double,
        codes_index_select_string, hmem, GRIB_NOT_FOUND]
  · intro hmem
    simp [codes_index_get_size, hmem, GRIB_SUCCESS]
  · intro hlk
    have hmem : indexHasKey idx key = true := lookup_some_hasKey hlk
    constructor <;>
      simp [codes_index_get_long, codes_index_select_long, hmem, hlk, GRIB_SUCCESS]
  · intro hlk
    have hmem : indexHasKey idx key = true := lookup_some_hasKey hlk
    constructor <;>
      simp [codes_index_get_double, codes_index_select_double, hmem, hlk, GRIB_SUCCESS]
  · intro hlk
    have hmem : indexHasKey idx key = true := lookup_some_hasKey hlk
    constructor <;>
      simp [codes_index_get_string, codes_index_select_string, hmem, hlk, GRIB_SUCCESS]

/-- Witness for C6 at the example index: `step` is not an index key, so
retrieval on it fails; `level` is a long-typed index key, so selecting it
succeeds. -/
theorem C6_index_key_must_belong_witness :
    indexHasKey exampleIndex "step" = false
    ∧ (codes_index_get_size exampleIndex "step").1 ≠ 0
    ∧ exampleIndex.keys.lookup "level" = some KeyType.tLong
    ∧ (codes_index_select_long exampleIndex "level" 500).1 = 0 :=
  ⟨by decide,
   ((C6_index_key_must_belong exampleIndex "step" 500 0 "").1 (by decide)).1,
   by decide,
   ((C6_index_key_must_belong exampleIndex "level" 500 0 "").2.2.1 (by decide)).2⟩

/-! ## Message stream. -/

/-- `true` when a message of kind `k` satisfies a request for kind `want`:
`PRODUCT_ANY` matches every kind. -/
def kindMatches (want k : ProductKind) : Bool :=
  decide (want = ProductKind.PRODUCT_ANY) || decide (want = k)

/-- Modelled from the spec: `grib_new_from_file` reads forward through the
stream until a message matching the requested product kind is found and
returns a handle on it, or signals `GRIB_END_OF_FILE` once no matching
message remains; the exhausted stream stays exhausted.  A stream is the
list of its not-yet-consumed messages, each a product kind with a payload. -/
def grib_new_from_file {α : Type} (want : ProductKind)
    (stream : List (ProductKind × α)) :
    (Option (ProductKind × α) × Int) × List (ProductKind × α) :=
  match scanNext (fun m => kindMatches want m.1) stream with
  | (none, rest) => ((none, GRIB_END_OF_FILE), rest)
  | (some m, rest) => ((some m, GRIB_SUCCESS), rest)

/-- Successive calls to `grib_new_from_file` until it signals
`GRIB_END_OF_FILE`, collecting the returned handles. -/
def drainStreamAux {α : Type} (want : ProductKind) :
    Nat → List (ProductKind × α) → List (ProductKind × α) × List (ProductKind × α)
  | 0, s => ([], s)
  | fuel + 1, s =>
    match grib_new_from_file want s with
    | ((none, _), rest) => ([], rest)
    | ((some m, _), rest) =>
      let r := drainStreamAux want fuel rest
      (m :: r.1, r.2)

/-- Full drain of a stream. -/
def drainStream {α : Type} (want : ProductKind) (s : List (ProductKind × α)) :
    List (ProductKind × α) × List (ProductKind × α) :=
  drainStreamAux want s.length s

theorem drainStreamAux_eq {α : Type} (want : ProductKind) (fuel : Nat) :
    ∀ s : List (ProductKind × α),
      drainStreamAux want fuel s =
        drainAux (fun m => kindMatches want m.1) fuel s := by
  induction fuel with
  | zero => intro s; rfl
  | succ n ih =>
    intro s
    cases hs : scanNext (fun m => kindMatches want m.1) s with
    | mk o rest =>
      cases o with
      | none => simp [drainStreamAux, grib_new_from_file, drainAux, hs]
      | some m => simp [drainStreamAux, grib_new_from_file, drainAux, hs, ih rest]

theorem drainStream_eq {α : Type} (want : ProductKind)
    (s : List (ProductKind × α)) :
    drainStream want s = (s.filter (fun m => kindMatches want m.1), []) := by
  rw [drainStream, drainStreamAux_eq]
  exact drainAll_eq_filter _ _

/-- Claim C5: on a stream containing exactly N messages of the requested
product kind, repeated calls to `grib_new_from_file` yield exactly those N
messages before `GRIB_END_OF_FILE` is returned, every further call returns
`GRIB_END_OF_FILE` again, and the end-of-file code is distinct from 0 and
from every other code of the error table. -/
theorem C5_stream_drain_then_end_of_file {α : Type} (want : ProductKind)
    (s : List (ProductKind × α)) (N : Nat)
    (hN : (s.filter fun m => kindMatches want m.1).length = N) :
    (drainStream want s).1 = s.filter (fun m => kindMatches want m.1)
    ∧ (drainStream want s).1.length = N
    ∧ grib_new_from_file want (drainStream want s).2 = ((none, GRIB_END_OF_FILE), [])
    ∧ grib_new_from_file want
        (grib_new_from_file want (drainStream want s).2).2
        = ((none, GRIB_END_OF_FILE), [])
    ∧ GRIB_END_OF_FILE ≠ GRIB_SUCCESS
    ∧ (gribErrorCodes.filter fun e => decide (e.2 = GRIB_END_OF_FILE)).map Prod.fst
        = ["GRIB_END_OF_FILE"] := by
  refine ⟨?_, ?_, ?_, ?_, by decide, by decide⟩
  · rw [drainStream_eq]
  · rw [drainStream_eq]
    exact hN
  · rw [drainStream_eq]
    rfl
  · rw [drainStream_eq]
    rfl

/-- Witness for C5 at a three-message stream holding two GRIB messages
around a BUFR one. -/
theorem C5_stream_drain_then_end_of_file_witness :
    ((([(ProductKind.PRODUCT_GRIB, (0 : Int)), (ProductKind.PRODUCT_BUFR, 1),
        (ProductKind.PRODUCT_GRIB, 2)] : List (ProductKind × Int)).filter
        fun m => kindMatches ProductKind.PRODUCT_GRIB m.1).length = 2)
    ∧ (drainStream ProductKind.PRODUCT_GRIB
        ([(ProductKind.PRODUCT_GRIB, (0 : Int)), (ProductKind.PRODUCT_BUFR, 1),
          (ProductKind.PRODUCT_GRIB, 2)] : List (ProductKind × Int))).1.length = 2 :=
  ⟨by decide,
   (C5_stream_drain_then_end_of_file ProductKind.PRODUCT_GRIB
      [(ProductKind.PRODUCT_GRIB, (0 : Int)), (ProductKind.PRODUCT_BUFR, 1),
       (ProductKind.PRODUCT_GRIB, 2)] 2 (by decide)).2.1⟩

/-! ## Keys iterator. -/

/-- A key name of a message, with the namespace it belongs to (if any) and
its attribute-flag bitmask. -/
structure KeyEntry where
  name : String
  nspace : Option String
  attributes : Nat
deriving DecidableEq, Repr

/-- Modelled from the spec: the per-key filter of a keys iterator.  A key
passes when it belongs to the requested namespace (exact match;
unrestricted when no namespace is given) and carries all requested
attribute flags. -/
def keyMatchesFilter (filter_flags : Nat) (ns : Option String)
    (k : KeyEntry) : Bool :=
  (match ns with
   | none => true
   | some s => decide (k.nspace = some s))
  && decide (Nat.land k.attributes filter_flags = filter_flags)

/-- Modelled from the spec: a `grib_keys_iterator`: the filter it was
created with, the key the cursor is positioned on, and the keys not yet
visited. -/
structure KeysIterator where
  filter_flags : Nat
  nspace : Option String
  current : Option KeyEntry
  remaining : List KeyEntry
deriving DecidableEq, Repr

/-- Modelled from the spec: `codes_keys_iterator_new` binds an iterator to
the handle's key list with the given attribute-flag filter and optional
namespace. -/
def codes_keys_iterator_new (h : List KeyEntry) (filter_flags : Nat)
    (ns : Option String) : KeysIterator :=
  ⟨filter_flags, ns, none, h⟩

/-- Modelled from the spec and the header doc ("1 if next iterator exists,
0 if no more elements to iterate on"): `codes_keys_iterator_next` advances
to the next key passing the filter and returns 1, or returns 0 once none
remains. -/
def codes_keys_iterator_next (it : KeysIterator) : Int × KeysIterator :=
  match scanNext (keyMatchesFilter it.filter_flags it.nspace) it.remaining with
  | (none, rest) => (0, ⟨it.filter_flags, it.nspace, none, rest⟩)
  | (some k, rest) => (1, ⟨it.filter_flags, it.nspace, some k, rest⟩)

/-- Modelled from the spec: `codes_keys_iterator_get_name` reads the name
of the key the cursor is positioned on. -/
def codes_keys_iterator_get_name (it : KeysIterator) : Option String :=
  it.current.map KeyEntry.name

/-- A caller's drain loop: step while `codes_keys_iterator_next` returns 1,
collecting the yielded key names. -/
def drainKeysAux : Nat → KeysIterator → List String × KeysIterator
  | 0, it => ([], it)
  | fuel + 1, it =>
    match codes_keys_iterator_next it with
    | (r, it2) =>
      if r = 1 then
        let d := drainKeysAux fuel it2
        ((codes_keys_iterator_get_name it2).getD "" :: d.1, d.2)
      else ([], it2)

/-- Full drain of a keys iterator. -/
def drainKeys (it : KeysIterator) : List String × KeysIterator :=
  drainKeysAux it.remaining.length it

theorem drainKeysAux_fst (fuel : Nat) :
    ∀ it : KeysIterator,
      (drainKeysAux fuel it).1 =
        ((drainAux (keyMatchesFilter it.filter_flags it.nspace) fuel
           it.remaining).1).map KeyEntry.name := by
  induction fuel with
  | zero => intro it; rfl
  | succ n ih =>
    intro it
    cases hs : scanNext (keyMatchesFilter it.filter_flags it.nspace) it.remaining with
    | mk o rest =>
      cases o with
      | none =>
        simp [drainKeysAux, codes_keys_iterator_next, drainAux, hs]
      | some k =>
        simp only [drainKeysAux, codes_keys_iterator_next, drainAux, hs]
        have := ih ⟨it.filter_flags, it.nspace, some k, rest⟩
        simp only [codes_keys_iterator_get_name] at this ⊢
        simp [this]

theorem drainKeys_fst (it : KeysIterator) :
    (drainKeys it).1 =
      (it.remaining.filter
        (keyMatchesFilter it.filter_flags it.nspace)).map KeyEntry.name := by
  rw [drainKeys, drainKeysAux_fst]
  rw [show drainAux (keyMatchesFilter it.filter_flags it.nspace)
        it.remaining.length it.remaining
      = (it.remaining.filter (keyMatchesFilter it.filter_flags it.nspace), [])
      from drainAll_eq_filter _ _]

theorem keyMatchesFilter_iff (flags : Nat) (ns : Option String) (k : KeyEntry) :
    keyMatchesFilter flags ns k = true ↔
      ((∀ s, ns = some s → k.nspace = some s)
       ∧ Nat.land k.attributes flags = flags) := by
  cases ns with
  | none => simp [keyMatchesFilter]
  | some s =>
    simp only [keyMatchesFilter, Bool.and_eq_true, decide_eq_true_eq]
    constructor
    · intro hk
      exact ⟨fun s2 hs2 => by cases hs2; exact hk.1, hk.2⟩
    · intro hk
      exact ⟨hk.1 s rfl, hk.2⟩

/-- Claim C9: a full drain of a keys iterator yields exactly the names of
the keys passing the filter — exact namespace membership when a namespace
is given, and all requested attribute flags present — and any two full
drains over the same message with the same filter yield the same names. -/
theorem C9_keys_iterator_filter_drain (h : List KeyEntry) (flags : Nat)
    (ns : Option String) (it1 it2 : KeysIterator)
    (h1 : it1 = codes_keys_iterator_new h flags ns)
    (h2 : it2.filter_flags = flags) (h3 : it2.nspace = ns)
    (h4 : it2.remaining = h) :
    (drainKeys it1).1 = (h.filter (keyMatchesFilter flags ns)).map KeyEntry.name
    ∧ (∀ n ∈ (drainKeys it1).1, ∃ k, k ∈ h ∧ k.name = n
        ∧ (∀ s, ns = some s → k.nspace = some s)
        ∧ Nat.land k.attributes flags = flags)
    ∧ (drainKeys it1).1 = (drainKeys it2).1 := by
  subst h1
  have e1 : (drainKeys (codes_keys_iterator_new h flags ns)).1 =
      (h.filter (keyMatchesFilter flags ns)).map KeyEntry.name :=
    drainKeys_fst (codes_keys_iterator_new h flags ns)
  refine ⟨e1, ?_, ?_⟩
  · intro n hn
    rw [e1] at hn
    obtain ⟨k, hk, rfl⟩ := List.mem_map.mp hn
    have hk2 := List.mem_filter.mp hk
    have hchar := (keyMatchesFilter_iff flags ns k).mp hk2.2
    exact ⟨k, hk2.1, rfl, hchar.1, hchar.2⟩
  · rw [e1, drainKeys_fst, h2, h3, h4]

/-- The geography example message of the spec: one key in the
`geography` namespace among keys of other namespaces. -/
def geographyKeys : List KeyEntry :=
  [⟨"latitudeOfFirstGridPoint", some "geography", 0⟩,
   ⟨"shortName", some "parameter", 0⟩,
   ⟨"editionNumber", none, 0⟩]

/-- Witness for C9: draining an iterator over `geographyKeys` filtered to
the `geography` namespace yields exactly that namespace's key. -/
theorem C9_keys_iterator_filter_drain_witness :
    (drainKeys (codes_keys_iterator_new geographyKeys 0 (some "geography"))).1
      = ["latitudeOfFirstGridPoint"] := by
  have e := (C9_keys_iterator_filter_drain geographyKeys 0 (some "geography")
    (codes_keys_iterator_new geographyKeys 0 (some "geography"))
    (codes_keys_iterator_new geographyKeys 0 (some "geography"))
    rfl rfl rfl rfl).1
  rw [e]
  decide

/-- Claim C10: `codes_keys_iterator_next` returns only 1 (a next key
exists) or 0 (no more elements): its result is never a negative error
code, and it is 0 exactly when no unvisited key passes the filter, so a
drain loop terminates solely on the 0 result. -/
theorem C10_next_returns_only_zero_or_one (it : KeysIterator) :
    ((codes_keys_iterator_next it).1 = 0 ∨ (codes_keys_iterator_next it).1 = 1)
    ∧ 0 ≤ (codes_keys_iterator_next it).1
    ∧ ((codes_keys_iterator_next it).1 = 0 ↔
        it.remaining.filter (keyMatchesFilter it.filter_flags it.nspace) = []) := by
  cases hs : scanNext (keyMatchesFilter it.filter_flags it.nspace) it.remaining with
  | mk o rest =>
    cases o with
    | none =>
      have h2 := scanNext_none _ _ _ hs
      refine ⟨Or.inl ?_, ?_, ?_⟩ <;>
        simp [codes_keys_iterator_next, hs, h2.1]
    | some k =>
      have h2 := scanNext_some _ _ _ _ hs
      refine ⟨Or.inr ?_, ?_, ?_⟩ <;>
        simp [codes_keys_iterator_next, hs, h2.1]
